import Mathlib

/-!
Verification of the Speech capture and chunking engine of the
lesson-companion repository (the `Speech` class).

The class is embedded shallowly: the mutable fields of a `Speech` instance
become a `SpeechState` record, each method and each recognizer/recorder
event handler becomes a state-transition function returning the new state
together with the list of callback invocations (events) it performs, in
order.  Calls into the browser platform (recognizer construction and
launch, microphone acquisition, recorder construction and launch) can fail
in the real system, so their behaviour is a parameter `Env`; an exception
that escapes a method is modelled by the `Outcome.threw` result.  Timers
are modelled by armed/not-armed flags, audio byte buffers by `List Nat`,
and the tracks of an acquired media stream by a `List Bool` recording, for
each track, whether it has been explicitly stopped.
-/

set_option maxRecDepth 10000

namespace LessonCompanion

/-- Capture mode, as returned by the detectMode method of the source:
"webspeech", "recorder" or "none". -/
inductive Mode where
  | webspeech
  | recorder
  | none
deriving DecidableEq, Repr

/-- The state of a MediaRecorder object, as far as the source consults it. -/
inductive RecState where
  | inactive
  | recording
deriving DecidableEq, Repr

/-- One callback invocation performed by the engine, in the order the
source performs them: onTranscript, onChunkReady, onAudioChunkReady
(carrying the segment bytes and the mime tag), onStatusChange, onError. -/
inductive Event where
  | transcriptUpd (full : String)
  | chunkReady (text : String)
  | audioChunkReady (bytes : List Nat) (mime : String)
  | statusChange (listening : Bool)
  | errorMsg (msg : String)
deriving DecidableEq, Repr

/-- Behaviour of the browser platform during one call: whether each of the
external operations the engine invokes throws or fails, how many audio
tracks a granted microphone stream carries, and the mime type the
constructed recorder reports. -/
structure Env where
  recogCtorThrows : Bool
  recogLaunchThrows : Bool
  micDenied : Bool
  micTracks : Nat
  recCtorThrows : Bool
  recLaunchThrows : Bool
  recorderMime : String
deriving DecidableEq, Repr

/-- One entry of a recognition event: the first alternative transcript and
the isFinal mark (event.results[i][0].transcript, event.results[i].isFinal). -/
structure RecResult where
  isFinal : Bool
  transcript : String
deriving DecidableEq, Repr

/-- The mutable fields of a Speech instance.  `silenceTimerArmed` and
`chunkIntervalArmed` model the two timers, `recognitionExists` models
whether the recognition field is non-null, `audioStream` whether the
audioStream field is non-null, `tracks` the stopped-flags of the tracks of
the most recently acquired stream, and `recordingChunks` the accumulated
sub-buffers of the current recording segment. -/
structure SpeechState where
  isListening : Bool
  transcript : String
  pendingChunk : String
  silenceTimerArmed : Bool
  chunkIntervalArmed : Bool
  recognitionExists : Bool
  restartAttempts : Nat
  maxRestarts : Nat
  intentionallyStopped : Bool
  mediaRecorder : Option RecState
  recorderMime : String
  audioStream : Bool
  tracks : List Bool
  recordingChunks : List (List Nat)
  mode : Mode
deriving DecidableEq, Repr

/-- Result of a method that in the source may either return a boolean or
let an exception escape. -/
inductive Outcome where
  | ok (b : Bool)
  | threw (msg : String)
deriving DecidableEq, Repr

/-- JavaScript String.prototype.trim: whitespace removed from both ends.
(Lean's own String.trim is equivalent for these purposes but its
byte-index implementation does not reduce in the kernel, so the character
list form is used.) -/
def jsTrim (s : String) : String :=
  String.mk (((s.data.dropWhile Char.isWhitespace).reverse.dropWhile
    Char.isWhitespace).reverse)

namespace Speech

/-- The constructor of the Speech class: every field at its initial value,
the mode fixed by detectMode (taken as a parameter, since it only inspects
platform capability). -/
def initState (m : Mode) : SpeechState :=
  { isListening := false
    transcript := ""
    pendingChunk := ""
    silenceTimerArmed := false
    chunkIntervalArmed := false
    recognitionExists := false
    restartAttempts := 0
    maxRestarts := 10
    intentionallyStopped := false
    mediaRecorder := none
    recorderMime := ""
    audioStream := false
    tracks := []
    recordingChunks := []
    mode := m }

/-- getTranscript(): the transcript buffer, trimmed. -/
def getTranscript (s : SpeechState) : String :=
  jsTrim s.transcript

/-- getPendingChunk(): the pending chunk, trimmed. -/
def getPendingChunk (s : SpeechState) : String :=
  jsTrim s.pendingChunk

/-- appendTranscript(text): appends text plus a space to the buffer and
fires onTranscript with the full buffer. -/
def appendTranscript (text : String) (s : SpeechState) :
    SpeechState × List Event :=
  let s1 := { s with transcript := s.transcript ++ text ++ " " }
  (s1, [Event.transcriptUpd s1.transcript])

/-- The flushTextChunk method: if the trimmed pending chunk is nonempty,
fire onChunkReady with it and clear the accumulator; otherwise do
nothing. -/
def flushTextChunk (s : SpeechState) : SpeechState × List Event :=
  if jsTrim s.pendingChunk ≠ "" then
    ({ s with pendingChunk := "" }, [Event.chunkReady (jsTrim s.pendingChunk)])
  else
    (s, [])

/-- The resetSilenceTimer method: clearTimeout plus setTimeout, i.e. the
silence timer ends up armed. -/
def resetSilenceTimer (s : SpeechState) : SpeechState :=
  { s with silenceTimerArmed := true }

/-- The startTextChunkInterval method: clearInterval plus setInterval,
i.e. the periodic chunk timer ends up armed. -/
def startTextChunkInterval (s : SpeechState) : SpeechState :=
  { s with chunkIntervalArmed := true }

/-- The clearTimers method: both timers disarmed. -/
def clearTimers (s : SpeechState) : SpeechState :=
  { s with silenceTimerArmed := false, chunkIntervalArmed := false }

/-- The finalText accumulation of the onresult handler: over the window of
results, append transcript plus a space for each finalized entry, skip the
rest. -/
def finalTextOf (results : List RecResult) : String :=
  results.foldl
    (fun acc r => if r.isFinal then acc ++ r.transcript ++ " " else acc) ""

/-- The onresult handler installed by startWebSpeech: reset the silence
timer, accumulate the finalized text of the event window, and if it is
nonempty (JavaScript truthiness of a string) append it to both the
transcript buffer and the pending chunk and fire onTranscript with the
full buffer. -/
def onresultHandler (results : List RecResult) (s : SpeechState) :
    SpeechState × List Event :=
  let s1 := resetSilenceTimer s
  let finalText := finalTextOf results
  if finalText ≠ "" then
    let s2 := { s1 with transcript := s1.transcript ++ finalText
                        pendingChunk := s1.pendingChunk ++ finalText }
    (s2, [Event.transcriptUpd s2.transcript])
  else
    (s1, [])

/-- The onerror handler installed by startWebSpeech: ignore "no-speech",
ignore "aborted" after an intentional stop, forward everything else to
onError. -/
def onerrorHandler (err : String) (s : SpeechState) :
    SpeechState × List Event :=
  if err = "no-speech" then (s, [])
  else if err = "aborted" ∧ s.intentionallyStopped = true then (s, [])
  else (s, [Event.errorMsg err])

/-- The onend handler installed by startWebSpeech: if the stop was not
intentional and the restart counter is below the bound, increment the
counter and relaunch the recognizer (if the relaunch throws, report
not-listening); otherwise report not-listening.  `restartThrows` is the
platform behaviour of the relaunch call. -/
def onendHandler (restartThrows : Bool) (s : SpeechState) :
    SpeechState × List Event :=
  if s.intentionallyStopped = false ∧ s.restartAttempts < s.maxRestarts then
    let s1 := { s with restartAttempts := s.restartAttempts + 1 }
    if restartThrows then
      ({ s1 with isListening := false }, [Event.statusChange false])
    else
      (s1, [])
  else
    ({ s with isListening := false }, [Event.statusChange false])

/-- The startWebSpeech method.  The recognizer constructor is invoked
OUTSIDE the try block of the source, so a throw there escapes; inside the
try block the flags are reset, the recognizer is launched (a throw there
is caught, reported via onError, and false is returned), and on success
listening is reported and both timers are started. -/
def startWebSpeech (env : Env) (s : SpeechState) :
    Outcome × SpeechState × List Event :=
  if env.recogCtorThrows then
    (Outcome.threw "SpeechRecognition constructor threw", s, [])
  else
    let s1 := { s with recognitionExists := true }
    let s2 := { s1 with intentionallyStopped := false, restartAttempts := 0 }
    if env.recogLaunchThrows then
      (Outcome.ok false, s2, [Event.errorMsg "recognition.start threw"])
    else
      let s3 := startTextChunkInterval (resetSilenceTimer
        { s2 with isListening := true })
      (Outcome.ok true, s3, [Event.statusChange true])

/-- The stopWebSpeech method: set the intentional-stop flag, request the
recognizer stop (wrapped in try/catch with an empty handler, so it has no
modelled effect), then flush any remaining pending chunk. -/
def stopWebSpeech (s : SpeechState) : SpeechState × List Event :=
  let s1 := { s with intentionallyStopped := true }
  if jsTrim s1.pendingChunk ≠ "" then
    ({ s1 with pendingChunk := "" },
      [Event.chunkReady (jsTrim s1.pendingChunk)])
  else
    (s1, [])

/-- The ondataavailable handler installed by startRecorder: push the data
buffer onto the segment accumulator when its size is positive. -/
def ondataavailableHandler (data : List Nat) (s : SpeechState) :
    SpeechState :=
  if 0 < data.length then
    { s with recordingChunks := s.recordingChunks ++ [data] }
  else
    s

/-- The blob mime tag used by the onstop handler: the mime type the
recorder reports, or "audio/webm" when that is empty (JavaScript
short-circuit or). -/
def blobMime (s : SpeechState) : String :=
  if s.recorderMime = "" then "audio/webm" else s.recorderMime

/-- The onstop handler installed by startRecorder: if the segment
accumulated no sub-buffers, return without emitting; otherwise build the
blob (concatenation of the sub-buffers), clear the accumulator, deliver
the chunk via onAudioChunkReady together with the mime tag, and if still
listening and the recorder is inactive relaunch it (that relaunch is
wrapped in try/catch with an empty handler). -/
def onstopHandler (s : SpeechState) : SpeechState × List Event :=
  if s.recordingChunks.length = 0 then
    (s, [])
  else
    let blob := s.recordingChunks.flatten
    let s1 := { s with recordingChunks := [] }
    let s2 :=
      if s1.isListening = true ∧ s1.mediaRecorder = some RecState.inactive then
        { s1 with mediaRecorder := some RecState.recording }
      else
        s1
    (s2, [Event.audioChunkReady blob (blobMime s)])

/-- The startRecorder method.  Microphone acquisition is awaited inside a
try block: denial is reported via onError and false is returned with no
resources held.  After acquisition the recorder is constructed and
launched with NO surrounding try, so a throw on either escapes while the
stream is already held.  On success the recorder records, listening is
reported and the periodic segment-boundary timer is armed. -/
def startRecorder (env : Env) (s : SpeechState) :
    Outcome × SpeechState × List Event :=
  if env.micDenied then
    (Outcome.ok false, s, [Event.errorMsg "Microphone access denied"])
  else
    let s1 := { s with audioStream := true
                       tracks := List.replicate env.micTracks false }
    if env.recCtorThrows then
      (Outcome.threw "MediaRecorder constructor threw", s1, [])
    else
      let s2 := { s1 with mediaRecorder := some RecState.inactive
                          recorderMime := env.recorderMime
                          recordingChunks := [] }
      if env.recLaunchThrows then
        (Outcome.threw "mediaRecorder.start threw", s2, [])
      else
        let s3 := { s2 with mediaRecorder := some RecState.recording
                            isListening := true }
        (Outcome.ok true, { s3 with chunkIntervalArmed := true },
          [Event.statusChange true])

/-- The stopRecorder method: clear the segment-boundary interval, request
the recorder stop when it is recording, then stop every track of the held
stream and null the stream field. -/
def stopRecorder (s : SpeechState) : SpeechState × List Event :=
  let s1 := { s with chunkIntervalArmed := false }
  let s2 :=
    if s1.mediaRecorder = some RecState.recording then
      { s1 with mediaRecorder := some RecState.inactive }
    else
      s1
  if s2.audioStream then
    ({ s2 with tracks := s2.tracks.map (fun _ => true), audioStream := false },
      [])
  else
    (s2, [])

/-- The public start() method: an already-listening engine returns true at
once; otherwise dispatch on the mode, with the unsupported mode reporting
an error and returning false. -/
def start (env : Env) (s : SpeechState) :
    Outcome × SpeechState × List Event :=
  if s.isListening then
    (Outcome.ok true, s, [])
  else
    match s.mode with
    | Mode.webspeech => startWebSpeech env s
    | Mode.recorder => startRecorder env s
    | Mode.none =>
      (Outcome.ok false, s,
        [Event.errorMsg "Speech recognition not supported in this browser"])

/-- The public stop() method: mode-specific teardown, then clear both
timers, set isListening to false and fire onStatusChange(false) -
unconditionally, in every mode and from every prior state. -/
def stop (s : SpeechState) : SpeechState × List Event :=
  let p :=
    match s.mode with
    | Mode.webspeech => stopWebSpeech s
    | Mode.recorder => stopRecorder s
    | Mode.none => (s, [])
  let s1 := { clearTimers p.1 with isListening := false }
  (s1, p.2 ++ [Event.statusChange false])

/-- The public reset() method: stop, then clear the transcript buffer and
the pending chunk. -/
def reset (s : SpeechState) : SpeechState × List Event :=
  let p := stop s
  ({ p.1 with transcript := "", pendingChunk := "" }, p.2)

/-- A sequence of unintentional recognizer terminations: iterate the onend
handler (with a relaunch that does not throw), collecting events. -/
def iterEnds : Nat → SpeechState → SpeechState × List Event
  | 0, s => (s, [])
  | n + 1, s =>
    let p := onendHandler false s
    let q := iterEnds n p.1
    (q.1, p.2 ++ q.2)

/-- One step of feeding recognition events: run the onresult handler on
the current state and append its events. -/
def runResultsStep (acc : SpeechState × List Event) (ev : List RecResult) :
    SpeechState × List Event :=
  let p := onresultHandler ev acc.1
  (p.1, acc.2 ++ p.2)

/-- A sequence of recognition events fed to the onresult handler,
collecting events. -/
def runResults (evs : List (List RecResult)) (s : SpeechState) :
    SpeechState × List Event :=
  evs.foldl runResultsStep (s, [])

/-- A sequence of ondataavailable deliveries within one recording
segment. -/
def runDataEvents (datas : List (List Nat)) (s : SpeechState) :
    SpeechState :=
  datas.foldl (fun st d => ondataavailableHandler d st) s

/-- All finalized transcripts of a sequence of recognition events, in
arrival order. -/
def finalTexts (evs : List (List RecResult)) : List String :=
  ((evs.flatten).filter (fun r => r.isFinal)).map (fun r => r.transcript)

/-- The concatenation the claim about the transcript buffer speaks of,
modelled from the spec words: all finalized texts in arrival order, each
SEPARATED from the next by a single space. -/
def specSeparatedConcat (texts : List String) : String :=
  String.intercalate " " texts

end Speech

/-- A platform on which nothing fails: recognizer and recorder construct
and launch without throwing, the microphone is granted with one track, and
the recorder reports the "audio/webm" mime type. -/
def envOk : Env :=
  { recogCtorThrows := false
    recogLaunchThrows := false
    micDenied := false
    micTracks := 1
    recCtorThrows := false
    recLaunchThrows := false
    recorderMime := "audio/webm" }

/-- A platform on which the recognizer constructor throws. -/
def envCtorThrow : Env := { envOk with recogCtorThrows := true }

/-- A platform on which the recognizer launch throws. -/
def envLaunchThrow : Env := { envOk with recogLaunchThrows := true }

/-- A platform on which the microphone permission request is rejected. -/
def envMicDenied : Env := { envOk with micDenied := true }

/-- A platform on which the recorder constructor throws after the
microphone has been granted. -/
def envRecCtorThrow : Env := { envOk with recCtorThrows := true }

/-- The engine state right after a successful start in continuous
recognition mode. -/
def startedWeb : SpeechState :=
  (Speech.start envOk (Speech.initState Mode.webspeech)).2.1

/-- The engine state right after a successful start in segmented recording
mode. -/
def startedRec : SpeechState :=
  (Speech.start envOk (Speech.initState Mode.recorder)).2.1

/-- The engine state right after stop() following a successful start in
continuous recognition mode: the intentional-stop flag is set. -/
def stoppedWeb : SpeechState :=
  (Speech.stop startedWeb).1

/-- A continuous-mode state whose pending chunk holds whitespace-padded
text, for exercising the flush primitive. -/
def stWithPending : SpeechState :=
  { Speech.initState Mode.webspeech with pendingChunk := " hi " }

/-- A recorder-mode state whose current segment has accumulated two
sub-buffers, of three and two bytes. -/
def stWithChunks : SpeechState :=
  { startedRec with recordingChunks := [[1, 2, 3], [4, 5]] }

/-! String concatenation helper lemmas, proved through the character-list
view of strings. -/

theorem string_append_empty (s : String) : s ++ "" = s := by
  apply String.ext
  rw [String.data_append]
  exact List.append_nil s.data

theorem string_empty_append (s : String) : "" ++ s = s := rfl

theorem string_append_assoc (a b c : String) : a ++ b ++ c = a ++ (b ++ c) := by
  apply String.ext
  simp only [String.data_append]
  exact List.append_assoc a.data b.data c.data

theorem string_foldl_append (l : List String) (acc : String) :
    l.foldl (fun r t => r ++ t) acc = acc ++ l.foldl (fun r t => r ++ t) "" := by
  induction l generalizing acc with
  | nil => simp [string_append_empty]
  | cons x xs ih =>
    simp only [List.foldl_cons]
    rw [ih (acc ++ x), ih ("" ++ x), string_empty_append, string_append_assoc]

theorem string_join_cons (x : String) (l : List String) :
    String.join (x :: l) = x ++ String.join l := by
  simp only [String.join, List.foldl_cons]
  rw [string_foldl_append l ("" ++ x), string_empty_append]

theorem string_join_append (l1 l2 : List String) :
    String.join (l1 ++ l2) = String.join l1 ++ String.join l2 := by
  induction l1 with
  | nil => rfl
  | cons x xs ih =>
    simp only [List.cons_append, string_join_cons, ih, string_append_assoc]

/-! Helper lemmas about the onresult handler and event folds. -/

theorem onresult_fields (results : List RecResult) (s : SpeechState) :
    (Speech.onresultHandler results s).1.transcript =
      s.transcript ++ Speech.finalTextOf results ∧
    (Speech.onresultHandler results s).1.pendingChunk =
      s.pendingChunk ++ Speech.finalTextOf results ∧
    (Speech.onresultHandler results s).1.silenceTimerArmed = true := by
  unfold Speech.onresultHandler Speech.resetSilenceTimer
  by_cases hf : Speech.finalTextOf results = ""
  · simp [hf, string_append_empty]
  · simp [hf]

theorem finalTextOf_foldl (rs : List RecResult) (acc : String) :
    rs.foldl
      (fun acc r => if r.isFinal then acc ++ r.transcript ++ " " else acc)
      acc =
    acc ++ String.join
      ((rs.filter (fun r => r.isFinal)).map (fun r => r.transcript ++ " ")) := by
  induction rs generalizing acc with
  | nil => simp [String.join, string_append_empty]
  | cons r rs ih =>
    by_cases h : r.isFinal
    · simp only [List.foldl_cons]
      rw [if_pos h, ih (acc ++ r.transcript ++ " "),
        List.filter_cons_of_pos h, List.map_cons, string_join_cons]
      simp [string_append_assoc]
    · simp [List.foldl_cons, List.filter_cons, h, ih]

theorem finalTextOf_eq (rs : List RecResult) :
    Speech.finalTextOf rs =
      String.join
        ((rs.filter (fun r => r.isFinal)).map (fun r => r.transcript ++ " ")) := by
  unfold Speech.finalTextOf
  rw [finalTextOf_foldl rs "", string_empty_append]

theorem runResults_acc (evs : List (List RecResult)) :
    ∀ (s : SpeechState) (es : List Event),
      evs.foldl Speech.runResultsStep (s, es) =
        ((Speech.runResults evs s).1, es ++ (Speech.runResults evs s).2) := by
  induction evs with
  | nil => intro s es; simp [Speech.runResults]
  | cons ev evs ih =>
    intro s es
    simp only [Speech.runResults, List.foldl_cons] at *
    rw [show Speech.runResultsStep (s, es) ev =
        ((Speech.onresultHandler ev s).1,
          es ++ (Speech.onresultHandler ev s).2) from rfl,
      show Speech.runResultsStep (s, []) ev =
        ((Speech.onresultHandler ev s).1,
          [] ++ (Speech.onresultHandler ev s).2) from rfl]
    rw [ih (Speech.onresultHandler ev s).1
        (es ++ (Speech.onresultHandler ev s).2),
      ih (Speech.onresultHandler ev s).1
        ([] ++ (Speech.onresultHandler ev s).2)]
    simp [List.append_assoc]

theorem runResults_cons_fst (ev : List RecResult) (evs : List (List RecResult))
    (s : SpeechState) :
    (Speech.runResults (ev :: evs) s).1 =
      (Speech.runResults evs (Speech.onresultHandler ev s).1).1 := by
  simp only [Speech.runResults, List.foldl_cons]
  rw [show Speech.runResultsStep (s, []) ev =
      ((Speech.onresultHandler ev s).1,
        [] ++ (Speech.onresultHandler ev s).2) from rfl]
  rw [runResults_acc evs (Speech.onresultHandler ev s).1
    ([] ++ (Speech.onresultHandler ev s).2)]
  rfl

theorem runResults_transcript (evs : List (List RecResult)) :
    ∀ s : SpeechState,
      (Speech.runResults evs s).1.transcript =
        s.transcript ++
          String.join ((Speech.finalTexts evs).map (fun t => t ++ " ")) := by
  induction evs with
  | nil =>
    intro s
    simp [Speech.runResults, Speech.finalTexts, String.join,
      string_append_empty]
  | cons ev evs ih =>
    intro s
    rw [runResults_cons_fst, ih, (onresult_fields ev s).1, finalTextOf_eq]
    simp only [Speech.finalTexts, List.flatten_cons, List.filter_append,
      List.map_append, string_join_append]
    rw [string_append_assoc]
    simp [List.map_map, Function.comp_def]

theorem runDataEvents_chunks (datas : List (List Nat)) :
    ∀ s : SpeechState,
      (Speech.runDataEvents datas s).recordingChunks =
        s.recordingChunks ++ datas.filter (fun d => decide (0 < d.length)) := by
  induction datas with
  | nil => intro s; simp [Speech.runDataEvents]
  | cons d datas ih =>
    intro s
    simp only [Speech.runDataEvents, List.foldl_cons] at *
    rw [ih (Speech.ondataavailableHandler d s)]
    unfold Speech.ondataavailableHandler
    by_cases h : 0 < d.length
    · simp [h, List.append_assoc]
    · simp [h]

/-! The claims. -/

/-- Claim C3 (confirmed): flush is idempotent and exactly-once.  A flush
that emits a chunk-ready event clears the pending-chunk accumulator in the
same step; a flush on an empty or whitespace-only pending chunk emits no
event and leaves the state unchanged; and a second consecutive flush never
emits anything, so the same accumulated text is never delivered twice. -/
theorem C3_flush_exactly_once (s : SpeechState) :
    (jsTrim s.pendingChunk = "" → Speech.flushTextChunk s = (s, [])) ∧
    (jsTrim s.pendingChunk ≠ "" →
      Speech.flushTextChunk s =
        ({ s with pendingChunk := "" },
          [Event.chunkReady (jsTrim s.pendingChunk)])) ∧
    (Speech.flushTextChunk (Speech.flushTextChunk s).1).2 = [] := by
  refine ⟨?_, ?_, ?_⟩
  · intro h
    simp [Speech.flushTextChunk, h]
  · intro h
    simp [Speech.flushTextChunk, h]
  · by_cases h : jsTrim s.pendingChunk = ""
    · simp [Speech.flushTextChunk, h]
    · have h1 : Speech.flushTextChunk s =
          ({ s with pendingChunk := "" },
            [Event.chunkReady (jsTrim s.pendingChunk)]) := by
        simp [Speech.flushTextChunk, h]
      rw [h1]
      have h2 :
          jsTrim ({ s with pendingChunk := "" } : SpeechState).pendingChunk
            = "" := rfl
      simp [Speech.flushTextChunk, h2]

/-- Witness for C3 at a whitespace-padded pending chunk. -/
theorem C3_witness :
    jsTrim stWithPending.pendingChunk ≠ "" ∧
    Speech.flushTextChunk stWithPending =
      ({ stWithPending with pendingChunk := "" }, [Event.chunkReady "hi"]) ∧
    (Speech.flushTextChunk (Speech.flushTextChunk stWithPending).1).2 = [] := by
  refine ⟨by decide, ?_, (C3_flush_exactly_once stWithPending).2.2⟩
  exact ((C3_flush_exactly_once stWithPending).2.1 (by decide)).trans (by decide)

/-- Claim C4 (confirmed): recognizer restarts are bounded by the maximum
(default 10).  An unintentional termination with the restart counter below
the bound increments the counter and restarts (no status event); once the
bound is reached a further termination sets isListening to false and
reports not-listening.  Iterating eleven unintentional terminations from a
freshly started engine keeps it listening through the tenth and leaves it
not-listening after the eleventh, with exactly one not-listening status
report and the counter stopped at 10. -/
theorem C4_restart_bound (s : SpeechState) :
    (s.intentionallyStopped = false → s.restartAttempts < s.maxRestarts →
      Speech.onendHandler false s =
        ({ s with restartAttempts := s.restartAttempts + 1 }, [])) ∧
    (s.maxRestarts ≤ s.restartAttempts →
      Speech.onendHandler false s =
        ({ s with isListening := false }, [Event.statusChange false])) ∧
    ((Speech.iterEnds 10 startedWeb).1.isListening = true ∧
      (Speech.iterEnds 10 startedWeb).2 = [] ∧
      (Speech.iterEnds 10 startedWeb).1.restartAttempts = 10 ∧
      (Speech.iterEnds 11 startedWeb).1.isListening = false ∧
      (Speech.iterEnds 11 startedWeb).2 = [Event.statusChange false] ∧
      (Speech.iterEnds 11 startedWeb).1.restartAttempts = 10) := by
  refine ⟨?_, ?_, by decide⟩
  · intro h1 h2
    simp [Speech.onendHandler, h1, h2]
  · intro h
    have h2 : ¬ s.restartAttempts < s.maxRestarts := Nat.not_lt.mpr h
    simp [Speech.onendHandler, h2]

/-- Witness for C4 at the freshly started continuous-mode engine. -/
theorem C4_witness :
    startedWeb.intentionallyStopped = false ∧
    startedWeb.restartAttempts < startedWeb.maxRestarts ∧
    Speech.onendHandler false startedWeb =
      ({ startedWeb with restartAttempts := startedWeb.restartAttempts + 1 },
        []) :=
  ⟨by decide, by decide,
    (C4_restart_bound startedWeb).1 (by decide) (by decide)⟩

/-- Claim C8 (confirmed): after reset(), getTranscript() returns the empty
string, the pending chunk is empty, and isListening is false, for every
prior state of the engine. -/
theorem C8_reset_clears (s : SpeechState) :
    Speech.getTranscript (Speech.reset s).1 = "" ∧
    (Speech.reset s).1.pendingChunk = "" ∧
    (Speech.reset s).1.isListening = false :=
  ⟨rfl, rfl, rfl⟩

/-- Claim C9 (confirmed): calling start() while already listening returns
true immediately and is a complete no-op: the state is returned unchanged
(transcript, pending chunk, restart counter, mode and all other fields)
and no event fires, whatever the platform behaviour. -/
theorem C9_start_noop_when_listening (env : Env) (s : SpeechState)
    (h : s.isListening = true) :
    Speech.start env s = (Outcome.ok true, s, []) := by
  simp [Speech.start, h]

/-- Witness for C9 at the freshly started continuous-mode engine. -/
theorem C9_witness :
    startedWeb.isListening = true ∧
    Speech.start envOk startedWeb = (Outcome.ok true, startedWeb, []) :=
  ⟨by decide, C9_start_noop_when_listening envOk startedWeb (by decide)⟩

/-- Claim C1 counterexample: the claim says a throw from recognizer
CONSTRUCTION during start() is reported via the error callback with start()
returning false and no exception escaping.  On the platform where the
recognizer constructor throws, start() on a fresh continuous-mode engine
lets the exception escape (the constructor is invoked outside the try
block) and no error event fires. -/
theorem C1_counterexample :
    (Speech.start envCtorThrow (Speech.initState Mode.webspeech)).1 =
      Outcome.threw "SpeechRecognition constructor threw" ∧
    (Speech.start envCtorThrow (Speech.initState Mode.webspeech)).2.2 = [] := by
  decide

/-- Claim C1 (amended): in continuous-recognition mode, if LAUNCHING the
recognizer throws during start(), the failure is reported via the error
callback and start() returns false with the engine not listening; a throw
from recognizer construction, however, escapes start(). -/
theorem C1_launch_throw_reported (env : Env) (s : SpeechState)
    (hm : s.mode = Mode.webspeech) (hl : s.isListening = false)
    (hc : env.recogCtorThrows = false) (ht : env.recogLaunchThrows = true) :
    Speech.start env s =
      (Outcome.ok false,
        { s with recognitionExists := true, intentionallyStopped := false,
                 restartAttempts := 0 },
        [Event.errorMsg "recognition.start threw"]) := by
  simp [Speech.start, Speech.startWebSpeech, hm, hl, hc, ht]

/-- Witness for C1 on the launch-throwing platform. -/
theorem C1_witness :
    Speech.start envLaunchThrow (Speech.initState Mode.webspeech) =
      (Outcome.ok false,
        { Speech.initState Mode.webspeech with
          recognitionExists := true, intentionallyStopped := false,
          restartAttempts := 0 },
        [Event.errorMsg "recognition.start threw"]) :=
  C1_launch_throw_reported envLaunchThrow (Speech.initState Mode.webspeech)
    rfl rfl rfl rfl

/-- Claim C2 counterexample: the claim says that after stop() sets the
intentional-stop flag, no recognizer event handler acts, so a late result
modifies neither the transcript buffer nor the pending chunk and re-arms
no timer.  On the engine state reached by start() followed by stop() (flag
set, timers cleared) a late finalized result still changes the transcript
buffer and the pending chunk and re-arms the silence timer, because the
onresult handler does not consult the flag. -/
theorem C2_counterexample :
    stoppedWeb.intentionallyStopped = true ∧
    stoppedWeb.silenceTimerArmed = false ∧
    (Speech.onresultHandler [⟨true, "hello"⟩] stoppedWeb).1.transcript ≠
      stoppedWeb.transcript ∧
    (Speech.onresultHandler [⟨true, "hello"⟩] stoppedWeb).1.pendingChunk ≠
      stoppedWeb.pendingChunk ∧
    (Speech.onresultHandler [⟨true, "hello"⟩] stoppedWeb).1.silenceTimerArmed
      = true := by
  decide

/-- Claim C2 (amended): after stop() sets the intentional-stop flag, the
onend handler checks the flag and performs no restart (it reports
not-listening without touching the restart counter), and the onerror
handler suppresses the abort error; the onresult handler, however, does
not check the flag: a recognition result arriving after an intentional
stop still appends its finalized text to the transcript buffer and the
pending chunk and re-arms the silence timer. -/
theorem C2_late_result_still_processed (s : SpeechState) (b : Bool)
    (results : List RecResult) (h : s.intentionallyStopped = true) :
    Speech.onendHandler b s =
      ({ s with isListening := false }, [Event.statusChange false]) ∧
    Speech.onerrorHandler "aborted" s = (s, []) ∧
    (Speech.onresultHandler results s).1.transcript =
      s.transcript ++ Speech.finalTextOf results ∧
    (Speech.onresultHandler results s).1.pendingChunk =
      s.pendingChunk ++ Speech.finalTextOf results ∧
    (Speech.onresultHandler results s).1.silenceTimerArmed = true := by
  refine ⟨?_, ?_, (onresult_fields results s).1, (onresult_fields results s).2.1,
    (onresult_fields results s).2.2⟩
  · simp [Speech.onendHandler, h]
  · simp [Speech.onerrorHandler, h]

/-- Witness for C2 on the stopped engine with one late finalized result. -/
theorem C2_witness :
    stoppedWeb.intentionallyStopped = true ∧
    (Speech.onendHandler false stoppedWeb =
        ({ stoppedWeb with isListening := false }, [Event.statusChange false]) ∧
      Speech.onerrorHandler "aborted" stoppedWeb = (stoppedWeb, []) ∧
      (Speech.onresultHandler [⟨true, "x"⟩] stoppedWeb).1.transcript =
        stoppedWeb.transcript ++ Speech.finalTextOf [⟨true, "x"⟩] ∧
      (Speech.onresultHandler [⟨true, "x"⟩] stoppedWeb).1.pendingChunk =
        stoppedWeb.pendingChunk ++ Speech.finalTextOf [⟨true, "x"⟩] ∧
      (Speech.onresultHandler [⟨true, "x"⟩] stoppedWeb).1.silenceTimerArmed
        = true) :=
  ⟨by decide,
    C2_late_result_still_processed stoppedWeb false [⟨true, "x"⟩] (by decide)⟩

/-- Claim C5 counterexample: the claim says the transcript buffer after the
events equals the concatenation of all finalized texts in arrival order,
each SEPARATED by a single space.  After one event with one finalized text
"hello" the buffer is "hello " (a trailing space is appended), which
differs from the space-separated concatenation "hello". -/
theorem C5_counterexample :
    (Speech.runResults [[⟨true, "hello"⟩]]
        (Speech.initState Mode.webspeech)).1.transcript ≠
      Speech.specSeparatedConcat ["hello"] := by
  decide

/-- Claim C5 (amended): for any sequence of recognition events fed to a
fresh engine, only result segments marked finalized contribute (interim
text is ignored), and the transcript buffer afterwards equals the
concatenation of all finalized texts in arrival order, each FOLLOWED by a
single space. -/
theorem C5_transcript_is_final_texts (evs : List (List RecResult)) :
    (Speech.runResults evs (Speech.initState Mode.webspeech)).1.transcript =
      String.join ((Speech.finalTexts evs).map (fun t => t ++ " ")) := by
  rw [runResults_transcript evs (Speech.initState Mode.webspeech)]
  rfl

/-- Claim C6 counterexample: the claim says the acquired microphone is
released on every exit path out of start().  On the platform where the
recorder constructor throws after the microphone was granted, start() on a
fresh recording-mode engine lets the exception escape while the stream is
still held and its track has not been stopped. -/
theorem C6_counterexample :
    (Speech.start envRecCtorThrow (Speech.initState Mode.recorder)).1 =
      Outcome.threw "MediaRecorder constructor threw" ∧
    (Speech.start envRecCtorThrow
        (Speech.initState Mode.recorder)).2.1.audioStream = true ∧
    (Speech.start envRecCtorThrow
        (Speech.initState Mode.recorder)).2.1.tracks = [false] := by
  decide

/-- Claim C6 (amended): in segmented-recording mode, if the permission
request is rejected, start() reports the error, returns false and holds no
resources (the state is unchanged); and stop() on any recording-mode state
holding the stream stops every acquired audio track and releases the
stream.  A throw from recorder construction or launch after acquisition,
however, escapes start() without releasing the tracks. -/
theorem C6_mic_released (env : Env) (s t : SpeechState)
    (hm : s.mode = Mode.recorder) (hl : s.isListening = false)
    (hd : env.micDenied = true)
    (htm : t.mode = Mode.recorder) (hts : t.audioStream = true) :
    Speech.start env s =
      (Outcome.ok false, s, [Event.errorMsg "Microphone access denied"]) ∧
    (Speech.stop t).1.audioStream = false ∧
    ∀ b ∈ (Speech.stop t).1.tracks, b = true := by
  refine ⟨?_, ?_, ?_⟩
  · simp [Speech.start, Speech.startRecorder, hm, hl, hd]
  · simp only [Speech.stop, Speech.stopRecorder, Speech.clearTimers, htm]
    split <;> simp [hts]
  · simp only [Speech.stop, Speech.stopRecorder, Speech.clearTimers, htm]
    split <;> simp [hts]

/-- Witness for C6: permission denied on a fresh recording-mode engine,
and stop() on the successfully started recording-mode engine. -/
theorem C6_witness :
    Speech.start envMicDenied (Speech.initState Mode.recorder) =
      (Outcome.ok false, Speech.initState Mode.recorder,
        [Event.errorMsg "Microphone access denied"]) ∧
    (Speech.stop startedRec).1.audioStream = false ∧
    ∀ b ∈ (Speech.stop startedRec).1.tracks, b = true :=
  C6_mic_released envMicDenied (Speech.initState Mode.recorder) startedRec
    rfl rfl rfl (by decide) (by decide)

/-- Claim C7 (confirmed): in segmented-recording mode, a segment that
accumulated zero sub-buffers never produces an audio-chunk-ready event
(the onstop handler returns with the state unchanged), and a segment with
sub-buffers emits exactly one audio-chunk-ready event whose blob is the
concatenation of the sub-buffers, so its byte length is the sum of their
lengths; the accumulator is cleared in the same step.  The accumulator
itself collects exactly the delivered data buffers of positive size. -/
theorem C7_segment_byte_length (s : SpeechState) (datas : List (List Nat)) :
    (s.recordingChunks = [] → Speech.onstopHandler s = (s, [])) ∧
    (s.recordingChunks ≠ [] →
      (Speech.onstopHandler s).2 =
        [Event.audioChunkReady s.recordingChunks.flatten (Speech.blobMime s)] ∧
      s.recordingChunks.flatten.length =
        (s.recordingChunks.map List.length).sum ∧
      (Speech.onstopHandler s).1.recordingChunks = []) ∧
    (Speech.runDataEvents datas s).recordingChunks =
      s.recordingChunks ++ datas.filter (fun d => decide (0 < d.length)) := by
  refine ⟨?_, ?_, runDataEvents_chunks datas s⟩
  · intro h
    simp [Speech.onstopHandler, h]
  · intro h
    have hlen : ¬ s.recordingChunks.length = 0 := by
      simpa [List.length_eq_zero] using h
    unfold Speech.onstopHandler
    rw [if_neg hlen]
    refine ⟨rfl, List.length_flatten s.recordingChunks, ?_⟩
    dsimp only
    split <;> rfl

/-- Witness for C7 on a segment holding sub-buffers of three and two
bytes. -/
theorem C7_witness :
    stWithChunks.recordingChunks ≠ [] ∧
    ((Speech.onstopHandler stWithChunks).2 =
        [Event.audioChunkReady stWithChunks.recordingChunks.flatten
          (Speech.blobMime stWithChunks)] ∧
      stWithChunks.recordingChunks.flatten.length =
        (stWithChunks.recordingChunks.map List.length).sum ∧
      (Speech.onstopHandler stWithChunks).1.recordingChunks = []) :=
  ⟨by decide,
    (C7_segment_byte_length stWithChunks []).2.1 (by decide)⟩

/-- Claim C10 (confirmed): every call to stop() unconditionally sets
isListening to false and fires onStatusChange(false) as its final event,
in every mode and from every prior state, including when the engine was
never started or was already stopped. -/
theorem C10_stop_unconditional (s : SpeechState) :
    (Speech.stop s).1.isListening = false ∧
    (Speech.stop s).2.getLast? = some (Event.statusChange false) := by
  refine ⟨rfl, ?_⟩
  show (_ ++ [Event.statusChange false]).getLast? = _
  exact List.getLast?_concat _

end LessonCompanion
